import Mathlib

/-!
Shallow embedding of the TRF1 RPV lookup service: the browser session
manager and query executor of `src/trf1Service.js`, and the two
`/api/consultar` request handlers of `src/server.js`.

JavaScript exceptions are modelled as `Except String` values (the string is
`error.message`); each external puppeteer call is an oracle outcome recorded
in an `Env`.  A JavaScript value tested for truthiness (`!this.browser`) is
an `Option`.  String lowering (`toLowerCase`) is modelled on ASCII letters.
-/

namespace RPV

/-- Session state of the singleton `TRF1Service`: `this.browser`,
`this.page` (null or a live handle) and the `this.isInitializing` guard. -/
structure Session where
  browser : Option Unit
  page : Option Unit
  isInitializing : Bool
deriving DecidableEq, Repr

/-- The state a fresh `TRF1Service` constructor produces: both handles null,
guard clear. -/
def emptySession : Session :=
  { browser := none, page := none, isInitializing := false }

/-- Outcomes of the external puppeteer calls made during one operation:
`puppeteer.launch`, `browser.newPage`, `page.setUserAgent`, `page.goto`
(a function of the target URL) and `page.content`.  `Except.error e`
models the call throwing an error whose `message` is `e`. -/
structure Env where
  launch : Except String Unit
  newPage : Except String Unit
  setUserAgent : Except String Unit
  goto : String → Except String Unit
  content : Except String String

/-- Embedding of `TRF1Service.initialize`.  Returns the new session state,
the normal-or-thrown outcome, and the number of browser processes the call
launched (`puppeteer.launch` completing successfully).  If a browser exists
or initialization is in progress it returns immediately; otherwise it sets
the guard, launches, opens a page and sets the user agent; on any failure
the catch block nulls both handles and re-throws, and the finally block
clears the guard on every path. -/
def svcInitialize (env : Env) (s : Session) : Session × Except String Unit × Nat :=
  if s.browser.isSome || s.isInitializing then
    (s, Except.ok (), 0)
  else
    match env.launch with
    | Except.error e =>
        ({ browser := none, page := none, isInitializing := false }, Except.error e, 0)
    | Except.ok _ =>
        match env.newPage with
        | Except.error e =>
            ({ browser := none, page := none, isInitializing := false }, Except.error e, 1)
        | Except.ok _ =>
            match env.setUserAgent with
            | Except.error e =>
                ({ browser := none, page := none, isInitializing := false }, Except.error e, 1)
            | Except.ok _ =>
                ({ browser := some (), page := some (), isInitializing := false },
                 Except.ok (), 1)

/-- Embedding of `TRF1Service.close`: if a browser handle exists, shut the
browser down and null both handles, else do nothing.  The second component
counts the `browser.close()` calls performed. -/
def close (s : Session) : Session × Nat :=
  if s.browser.isSome then
    ({ browser := none, page := none, isInitializing := s.isInitializing }, 1)
  else
    (s, 0)

/-- Embedding of `TRF1Service.isReady`:
`this.browser !== null && this.page !== null`. -/
def isReady (s : Session) : Bool :=
  s.browser.isSome && s.page.isSome

/-- Tests whether `pat` is a leading segment of `hay`
(character-list form of a string match at one position). -/
def matchAt : List Char → List Char → Bool
  | [], _ => true
  | _ :: _, [] => false
  | p :: ps, c :: cs => p == c && matchAt ps cs

/-- Tests whether `pat` occurs contiguously anywhere in `hay`. -/
def containsSeq (pat : List Char) : List Char → Bool
  | [] => matchAt pat []
  | c :: cs => matchAt pat (c :: cs) || containsSeq pat cs

/-- Embedding of JavaScript `hay.includes(pat)`: substring test. -/
def strContains (hay pat : String) : Bool :=
  containsSeq pat.data hay.data

/-- The fixed keyword list `palavrasChaveRPV` of `consultarProcesso`, in
source order (priority order of the scan). -/
def palavrasChaveRPV : List String :=
  ["Requisição de Pequeno Valor", "RPV", "migração", "migrado",
   "precatório", "requisitorio"]

/-- Lowering of one character, as `toLowerCase` acts on ASCII letters (the
embedding restricts JavaScript Unicode lowering to the ASCII range; every
uppercase letter of the keyword list is ASCII). -/
def jsCharToLower (c : Char) : Char :=
  if 'A' ≤ c ∧ c ≤ 'Z' then Char.ofNat (c.toNat + 32) else c

/-- Embedding of JavaScript `s.toLowerCase()`. -/
def jsToLower (s : String) : String :=
  ⟨s.data.map jsCharToLower⟩

/-- One loop test of the keyword scan:
`html.toLowerCase().includes(palavra.toLowerCase())`. -/
def keywordMatches (html palavra : String) : Bool :=
  strContains (jsToLower html) (jsToLower palavra)

/-- The `for (const palavra of palavrasChaveRPV)` loop body: starting from
`temRPV = false, detalhesRPV = ""`, stop at the first keyword whose
lowercase form occurs in the lowercase HTML. -/
def scanLoop (html : String) : List String → Bool × String
  | [] => (false, "")
  | palavra :: rest =>
    if keywordMatches html palavra then (true, palavra) else scanLoop html rest

/-- The keyword scan of `consultarProcesso` applied to the extracted HTML. -/
def scanKeywords (html : String) : Bool × String :=
  scanLoop html palavrasChaveRPV

/-- Result object of `consultarProcesso` (and the JSON bodies built from
it): `sucesso: true` results carry `temRPV` and `detalhes`, `sucesso: false`
results carry only `mensagem`. -/
inductive QueryResult where
  | ok (mensagem : String) (temRPV : Bool) (detalhes : String)
  | err (mensagem : String)
deriving DecidableEq, Repr

/-- The `sucesso` field of a result. -/
def QueryResult.sucesso : QueryResult → Bool
  | QueryResult.ok _ _ _ => true
  | QueryResult.err _ => false

/-- The `mensagem` field of a result. -/
def QueryResult.mensagem : QueryResult → String
  | QueryResult.ok m _ _ => m
  | QueryResult.err m => m

/-- The `temRPV` field of a result, absent on failure results. -/
def QueryResult.temRPV? : QueryResult → Option Bool
  | QueryResult.ok _ t _ => some t
  | QueryResult.err _ => none

/-- The `detalhes` field of a result, absent on failure results. -/
def QueryResult.detalhes? : QueryResult → Option String
  | QueryResult.ok _ _ d => some d
  | QueryResult.err _ => none

/-- The target URL template of `consultarProcesso`. -/
def buildUrl (secao proc uf : String) : String :=
  "https://processual.trf1.jus.br/consultaProcessual/processoExecucao/listar.php?secao="
    ++ secao ++ "&proc=" ++ proc ++ "&uf=" ++ uf

/-- Result computation of `TRF1Service.consultarProcesso`, given the
session state `s1` and outcome `initRes` of the lazy initialization step:
throw `Falha ao inicializar a página` if the page is still null, navigate,
extract the HTML and scan it for keywords; the catch block turns any thrown
error (including `initRes`) into a `sucesso: false` result whose message
appends `error.message`. -/
def consultarResult (env : Env) (s1 : Session) (initRes : Except String Unit)
    (secao proc uf : String) : QueryResult :=
  match initRes with
  | Except.error e =>
      QueryResult.err ("Erro durante a consulta: " ++ e)
  | Except.ok _ =>
      if !s1.page.isSome then
        QueryResult.err ("Erro durante a consulta: " ++ "Falha ao inicializar a página")
      else
        match env.goto (buildUrl secao proc uf) with
        | Except.error e =>
            QueryResult.err ("Erro durante a consulta: " ++ e)
        | Except.ok _ =>
            match env.content with
            | Except.error e =>
                QueryResult.err ("Erro durante a consulta: " ++ e)
            | Except.ok html =>
                let (temRPV, detalhes) := scanKeywords html
                QueryResult.ok
                  (if temRPV then "RPV encontrada: " ++ detalhes
                   else "Página carregada, mas RPV não foi encontrada")
                  temRPV detalhes

/-- Embedding of `TRF1Service.consultarProcesso`.  Inside the try block:
lazily initialize when a handle is null (updating the session state; a
thrown initialization error falls to the catch block), then compute the
result via `consultarResult`.  Returns the new session state and the
result. -/
def consultarProcesso (env : Env) (s : Session) (secao proc uf : String) :
    Session × QueryResult :=
  let s1 : Session :=
    if !s.browser.isSome || !s.page.isSome then (svcInitialize env s).1 else s
  let initRes : Except String Unit :=
    if !s.browser.isSome || !s.page.isSome then (svcInitialize env s).2.1
    else Except.ok ()
  (s1, consultarResult env s1 initRes secao proc uf)

/-- One service operation, for reasoning about arbitrary call sequences. -/
inductive Op where
  | opInitialize (env : Env)
  | opConsultar (env : Env) (secao proc uf : String)
  | opClose

/-- State transition of one operation (outputs discarded). -/
def runOp (s : Session) : Op → Session
  | Op.opInitialize env => (svcInitialize env s).1
  | Op.opConsultar env secao proc uf => (consultarProcesso env s secao proc uf).1
  | Op.opClose => (close s).1

/-- State after a sequence of operations. -/
def runOps (s : Session) (ops : List Op) : Session :=
  ops.foldl runOp s

/-- Session invariant as a boolean: a non-null page handle implies a
non-null browser handle. -/
def sessionInv (s : Session) : Bool :=
  !s.page.isSome || s.browser.isSome

/-- Request parameters as the handlers read them (`req.body` fields for
POST, `req.query` fields for GET): a missing field is `none`. -/
structure Params where
  secao : Option String
  proc : Option String
  uf : Option String
deriving DecidableEq, Repr

/-- An HTTP request carrying both a parsed JSON body and query parameters. -/
structure Request where
  body : Params
  query : Params
deriving DecidableEq, Repr

/-- JavaScript falsiness of an optional request field: `!x` is true when
the field is missing or the empty string. -/
def falsy : Option String → Bool
  | none => true
  | some v => v == ""

/-- A session-touching call made by a request handler, for tracing which
service operations a request triggers. -/
inductive SessionOp where
  | callInitialize
  | callConsultar (secao proc uf : String)
deriving DecidableEq, Repr

/-- An HTTP response: status code and JSON body. -/
structure HttpResponse where
  status : Nat
  body : QueryResult
deriving DecidableEq, Repr

/-- Embedding of the `POST /api/consultar` handler: reads `secao, proc, uf`
from the JSON body, rejects a falsy field with a 400 response, lazily
initializes the service when it is not ready (a thrown initialization error
is caught into a 500 response), then runs the query and serializes its
result with status 200.  Also returns the trace of service calls made. -/
def postApiConsultar (env : Env) (s : Session) (req : Request) :
    Session × HttpResponse × List SessionOp :=
  if falsy req.body.secao || falsy req.body.proc || falsy req.body.uf then
    (s, { status := 400,
          body := QueryResult.err "Parâmetros obrigatórios: secao, proc, uf" }, [])
  else
    let secao := req.body.secao.getD ""
    let proc := req.body.proc.getD ""
    let uf := req.body.uf.getD ""
    if isReady s then
      let (s1, r) := consultarProcesso env s secao proc uf
      (s1, { status := 200, body := r }, [SessionOp.callConsultar secao proc uf])
    else
      match svcInitialize env s with
      | (s1, Except.error e, _) =>
          (s1, { status := 500,
                 body := QueryResult.err ("Erro durante a consulta: " ++ e) },
           [SessionOp.callInitialize])
      | (s1, Except.ok _, _) =>
          let (s2, r) := consultarProcesso env s1 secao proc uf
          (s2, { status := 200, body := r },
           [SessionOp.callInitialize, SessionOp.callConsultar secao proc uf])

/-- Embedding of the `GET /api/consultar` handler, a textual sibling of the
POST handler that reads `secao, proc, uf` from the query string instead of
the JSON body. -/
def getApiConsultar (env : Env) (s : Session) (req : Request) :
    Session × HttpResponse × List SessionOp :=
  if falsy req.query.secao || falsy req.query.proc || falsy req.query.uf then
    (s, { status := 400,
          body := QueryResult.err "Parâmetros obrigatórios: secao, proc, uf" }, [])
  else
    let secao := req.query.secao.getD ""
    let proc := req.query.proc.getD ""
    let uf := req.query.uf.getD ""
    if isReady s then
      let (s1, r) := consultarProcesso env s secao proc uf
      (s1, { status := 200, body := r }, [SessionOp.callConsultar secao proc uf])
    else
      match svcInitialize env s with
      | (s1, Except.error e, _) =>
          (s1, { status := 500,
                 body := QueryResult.err ("Erro durante a consulta: " ++ e) },
           [SessionOp.callInitialize])
      | (s1, Except.ok _, _) =>
          let (s2, r) := consultarProcesso env s1 secao proc uf
          (s2, { status := 200, body := r },
           [SessionOp.callInitialize, SessionOp.callConsultar secao proc uf])

/-- Spec-side description of the keyword scan outcome: the first keyword of
the priority order whose lowercase form is a substring of the lowercase
HTML, or the empty string when none matches. -/
def firstMatchSpec (html : String) : String :=
  if keywordMatches html "Requisição de Pequeno Valor" then "Requisição de Pequeno Valor"
  else if keywordMatches html "RPV" then "RPV"
  else if keywordMatches html "migração" then "migração"
  else if keywordMatches html "migrado" then "migrado"
  else if keywordMatches html "precatório" then "precatório"
  else if keywordMatches html "requisitorio" then "requisitorio"
  else ""

/-- An environment in which every puppeteer call succeeds and the extracted
HTML mentions a precatório (and no earlier-priority keyword). -/
def envOk : Env :=
  { launch := Except.ok (), newPage := Except.ok (), setUserAgent := Except.ok (),
    goto := fun _ => Except.ok (),
    content := Except.ok "<html>algum texto sobre precatório</html>" }

/-- An environment in which the browser launch throws. -/
def envLaunchFail : Env :=
  { launch := Except.error "boom", newPage := Except.ok (),
    setUserAgent := Except.ok (), goto := fun _ => Except.ok (),
    content := Except.ok "" }

/-- An environment in which navigation times out. -/
def envNavFail : Env :=
  { launch := Except.ok (), newPage := Except.ok (), setUserAgent := Except.ok (),
    goto := fun _ => Except.error "Navigation timeout of 60000 ms exceeded",
    content := Except.ok "" }

/-- A session with both handles live, as left by a successful
initialization. -/
def readySession : Session :=
  { browser := some (), page := some (), isInitializing := false }

/-- A session with no handles but the in-progress guard set, as seen by a
caller racing a concurrent initialization. -/
def stuckSession : Session :=
  { browser := none, page := none, isInitializing := true }

/-- A request supplying no parameters at all, in the body or the query. -/
def reqMissing : Request :=
  { body := { secao := none, proc := none, uf := none },
    query := { secao := none, proc := none, uf := none } }

/-! ## Helper lemmas -/

/-- Matching at the head succeeds exactly when the pattern is a leading
segment of the text. -/
theorem matchAt_eq_true_iff (ps cs : List Char) :
    matchAt ps cs = true ↔ ∃ rest, cs = ps ++ rest := by
  induction ps generalizing cs with
  | nil => simp [matchAt]
  | cons p ps ih =>
    cases cs with
    | nil =>
      simp [matchAt]
    | cons c cs' =>
      simp only [matchAt, Bool.and_eq_true, beq_iff_eq, ih, List.cons_append,
        List.cons.injEq]
      constructor
      · rintro ⟨rfl, rest, rfl⟩
        exact ⟨rest, rfl, rfl⟩
      · rintro ⟨rest, rfl, rfl⟩
        exact ⟨rfl, rest, rfl⟩

/-- The contiguous-occurrence scan succeeds exactly when the pattern occurs
as a contiguous segment of the text. -/
theorem containsSeq_eq_true_iff (ps cs : List Char) :
    containsSeq ps cs = true ↔ ∃ pre post, cs = pre ++ ps ++ post := by
  induction cs with
  | nil =>
    simp only [containsSeq, matchAt_eq_true_iff]
    constructor
    · rintro ⟨rest, h⟩
      rcases List.append_eq_nil.mp h.symm with ⟨rfl, rfl⟩
      exact ⟨[], [], rfl⟩
    · rintro ⟨pre, post, h⟩
      rcases List.append_eq_nil.mp h.symm with ⟨h1, rfl⟩
      rcases List.append_eq_nil.mp h1 with ⟨rfl, rfl⟩
      exact ⟨[], rfl⟩
  | cons c cs ih =>
    simp only [containsSeq, Bool.or_eq_true, matchAt_eq_true_iff, ih]
    constructor
    · rintro (⟨rest, h⟩ | ⟨pre, post, h⟩)
      · exact ⟨[], rest, by simpa using h⟩
      · exact ⟨c :: pre, post, by simp [h]⟩
    · rintro ⟨pre, post, h⟩
      cases pre with
      | nil => exact Or.inl ⟨post, by simpa using h⟩
      | cons x pre' =>
        right
        simp only [List.cons_append, List.cons.injEq] at h
        exact ⟨pre', post, h.2⟩

/-- The JavaScript `includes` embedding agrees with substring occurrence on
the underlying character lists. -/
theorem strContains_iff (hay pat : String) :
    strContains hay pat = true ↔ ∃ pre post, hay.data = pre ++ pat.data ++ post :=
  containsSeq_eq_true_iff pat.data hay.data

/-- A string contains every suffix appended to it. -/
theorem strContains_append_right (a e : String) :
    strContains (a ++ e) e = true := by
  rw [strContains_iff]
  exact ⟨a.data, [], by simp [String.data_append]⟩

/-- The keyword loop reports a match exactly when some keyword of the list
matches. -/
theorem scanLoop_found_iff (html : String) (l : List String) :
    (scanLoop html l).1 = true ↔ ∃ palavra ∈ l, keywordMatches html palavra = true := by
  induction l with
  | nil => simp [scanLoop]
  | cons k rest ih =>
    cases h : keywordMatches html k <;> simp [scanLoop, h, ih]

/-- The keyword scan returns the first matching keyword of the priority
order, or the empty string. -/
theorem scanKeywords_snd (html : String) :
    (scanKeywords html).2 = firstMatchSpec html := by
  unfold scanKeywords palavrasChaveRPV firstMatchSpec
  cases h1 : keywordMatches html "Requisição de Pequeno Valor" <;>
    cases h2 : keywordMatches html "RPV" <;>
      cases h3 : keywordMatches html "migração" <;>
        cases h4 : keywordMatches html "migrado" <;>
          cases h5 : keywordMatches html "precatório" <;>
            cases h6 : keywordMatches html "requisitorio" <;>
              simp [scanLoop, h1, h2, h3, h4, h5, h6]

/-! ## Claim theorems -/

/-- C3: `initialize()` is idempotent.  If a browser handle already exists or
the in-progress guard is set, the call returns immediately with no state
change and launches nothing; and after any `initialize()` call that returns
normally, a second call is such a no-op, so no second browser process is
ever launched. -/
theorem initialize_idempotent (env1 env2 : Env) (s s2 : Session) (n : Nat) :
    (s.browser.isSome = true ∨ s.isInitializing = true →
      svcInitialize env1 s = (s, Except.ok (), 0)) ∧
    (svcInitialize env1 s = (s2, Except.ok (), n) →
      svcInitialize env2 s2 = (s2, Except.ok (), 0)) := by
  have noop : ∀ (env : Env) (t : Session),
      t.browser.isSome = true ∨ t.isInitializing = true →
      svcInitialize env t = (t, Except.ok (), 0) := by
    intro env t h
    rcases h with h | h <;> simp [svcInitialize, h]
  refine ⟨noop env1 s, ?_⟩
  intro h
  by_cases hg : s.browser.isSome = true ∨ s.isInitializing = true
  · rw [noop env1 s hg] at h
    obtain ⟨rfl, -⟩ := Prod.mk.injEq .. ▸ h
    exact noop env2 s hg
  · simp only [not_or, Bool.not_eq_true] at hg
    obtain ⟨hb, hi⟩ := hg
    obtain ⟨l, np, su, g, c⟩ := env1
    cases l <;> cases np <;> cases su <;>
      simp_all [svcInitialize] <;>
        (obtain ⟨rfl, -⟩ := h; simp [svcInitialize])

/-- C5: `isReady()` returns true iff both handles are non-null; it is false
on the fresh session and after any `close()`, and true after an
`initialize()` run that completes successfully from a fresh-guard state. -/
theorem isReady_spec (s : Session) (env : Env) :
    isReady s = (s.browser.isSome && s.page.isSome) ∧
    isReady emptySession = false ∧
    isReady (close s).1 = false ∧
    (∀ s1 n, s.browser = none → s.isInitializing = false →
      svcInitialize env s = (s1, Except.ok (), n) → isReady s1 = true) := by
  refine ⟨rfl, rfl, ?_, ?_⟩
  · by_cases h : s.browser.isSome = true <;> simp_all [close, isReady]
  · intro s1 n hb hi h
    obtain ⟨l, np, su, g, c⟩ := env
    cases l <;> cases np <;> cases su <;> simp_all [svcInitialize, isReady] <;>
      (obtain ⟨rfl, -⟩ := h; simp)

/-- C6: `close()` clears the browser handle, shuts the process down exactly
when a browser existed, is a no-op when the browser handle is already null,
and is idempotent: a second call changes nothing and closes nothing.  On
sessions satisfying the session invariant it leaves both handles null. -/
theorem close_idempotent (s : Session) :
    close (close s).1 = ((close s).1, 0) ∧
    ((close s).1).browser = none ∧
    (s.browser = none → close s = (s, 0)) ∧
    (s.browser.isSome = true →
      close s = ({ browser := none, page := none, isInitializing := s.isInitializing }, 1)) ∧
    (sessionInv s = true → ((close s).1).page = none) := by
  by_cases h : s.browser.isSome = true
  · refine ⟨by simp [close, h], by simp [close, h], ?_, by simp [close, h], by simp [close, h]⟩
    intro hb
    rw [hb] at h
    simp at h
  · have hb : s.browser = none := Option.not_isSome_iff_eq_none.mp (by simpa using h)
    refine ⟨by simp [close, hb], by simp [close, hb], by simp [close, hb],
      by simp [h], ?_⟩
    intro hinv
    simp only [sessionInv, hb, Option.isSome_none, Bool.or_false,
      Bool.not_eq_true'] at hinv
    have hp : s.page = none := Option.not_isSome_iff_eq_none.mp (by simp [hinv])
    simp [close, hb, hp]

/-- C7: when `initialize()` actually runs (guard passed) the guard is
cleared on every exit path, and if it exits by throwing then the session has
been reset to empty and the thrown error is one raised by the launch,
new-page or user-agent step. -/
theorem initialize_failure_resets (env : Env) (s : Session)
    (hb : s.browser = none) (hi : s.isInitializing = false) :
    ((svcInitialize env s).1).isInitializing = false ∧
    (∀ s1 e n, svcInitialize env s = (s1, Except.error e, n) →
      s1 = emptySession ∧
      (env.launch = Except.error e ∨ env.newPage = Except.error e ∨
        env.setUserAgent = Except.error e)) := by
  obtain ⟨l, np, su, g, c⟩ := env
  cases l <;> cases np <;> cases su <;>
    simp_all [svcInitialize, emptySession]

/-- C10: if after the lazy `initialize()` call inside `consultarProcesso`
the page handle is still null — as when initialization no-ops because a
browser handle exists or the in-progress guard is set — the call does not
touch the null page: it returns the session unchanged together with a
`sucesso: false` result carrying `Falha ao inicializar a página`. -/
theorem consultar_null_page_guard (env : Env) (s : Session) (secao proc uf : String)
    (hpage : s.page = none)
    (hguard : s.browser.isSome = true ∨ s.isInitializing = true) :
    consultarProcesso env s secao proc uf =
      (s, QueryResult.err ("Erro durante a consulta: " ++ "Falha ao inicializar a página")) := by
  rcases hguard with h | h <;>
    simp [consultarProcesso, consultarResult, svcInitialize, h, hpage]

/-- The session state left by `consultarProcesso` is the one left by the
lazy initialization (when a handle was null), else the input state. -/
theorem consultar_state (env : Env) (s : Session) (secao proc uf : String) :
    (consultarProcesso env s secao proc uf).1 =
      (if !s.browser.isSome || !s.page.isSome then (svcInitialize env s).1 else s) := by
  rfl

/-- Every single operation preserves the session invariant. -/
theorem sessionInv_runOp (s : Session) (op : Op) (h : sessionInv s = true) :
    sessionInv (runOp s op) = true := by
  have hinit : ∀ env : Env, sessionInv (svcInitialize env s).1 = true := by
    intro env
    obtain ⟨l, np, su, g, c⟩ := env
    by_cases hg : (s.browser.isSome || s.isInitializing) = true
    · simp [svcInitialize, hg, h]
    · cases l <;> cases np <;> cases su <;> simp_all [svcInitialize, sessionInv]
  cases op with
  | opInitialize env => exact hinit env
  | opConsultar env secao proc uf =>
    simp only [runOp, consultar_state]
    split
    · exact hinit env
    · exact h
  | opClose =>
    simp only [runOp]
    by_cases hb : s.browser.isSome = true <;> simp_all [close, sessionInv]

/-- Every sequence of operations started from an invariant state preserves
the session invariant. -/
theorem runOps_inv (s : Session) (ops : List Op) (h : sessionInv s = true) :
    sessionInv (runOps s ops) = true := by
  induction ops generalizing s with
  | nil => exact h
  | cons op rest ih =>
    simp only [runOps, List.foldl]
    exact ih (runOp s op) (sessionInv_runOp s op h)

/-- C4: along every sequence of `initialize`, `consultarProcesso` and
`close` operations from the fresh session, a non-null page handle implies a
non-null browser handle. -/
theorem session_invariant_holds (ops : List Op) :
    sessionInv (runOps emptySession ops) = true :=
  runOps_inv emptySession ops rfl

/-- C9: for any parameter triple, the POST handler reading it from the JSON
body and the GET handler reading it from the query string make the same
service calls and produce the same state, status and response body. -/
theorem get_post_handlers_agree (env : Env) (s : Session) (p q1 q2 : Params) :
    postApiConsultar env s { body := p, query := q1 } =
      getApiConsultar env s { body := q2, query := p } := rfl

/-- C8: a request with a missing or empty `secao`, `proc` or `uf` — in the
JSON body for POST, in the query string for GET — is answered 400 with a
`sucesso: false` body, with no service call made and the session state
unchanged. -/
theorem handlers_reject_missing_params (env : Env) (s : Session) (req : Request) :
    ((falsy req.body.secao || falsy req.body.proc || falsy req.body.uf) = true →
      postApiConsultar env s req =
        (s, { status := 400,
              body := QueryResult.err "Parâmetros obrigatórios: secao, proc, uf" }, [])) ∧
    ((falsy req.query.secao || falsy req.query.proc || falsy req.query.uf) = true →
      getApiConsultar env s req =
        (s, { status := 400,
              body := QueryResult.err "Parâmetros obrigatórios: secao, proc, uf" }, [])) := by
  constructor <;> (intro h; simp [postApiConsultar, getApiConsultar, h])

/-- C1: once `consultarProcesso` obtains the page HTML, it returns a
`sucesso: true` result whose `temRPV` is true exactly when one of the six
keywords occurs case-insensitively (lowercased forms, substring test) in
the HTML, and whose `detalhes` is the first matching keyword of the
priority order, or the empty string when none matches. -/
theorem consultar_scan_correct (env : Env) (s : Session) (secao proc uf html : String)
    (hready : isReady s = true)
    (hgoto : env.goto (buildUrl secao proc uf) = Except.ok ())
    (hcontent : env.content = Except.ok html) :
    ((consultarProcesso env s secao proc uf).2).sucesso = true ∧
    (((consultarProcesso env s secao proc uf).2).temRPV? = some true ↔
      ∃ palavra ∈ palavrasChaveRPV, ∃ pre post,
        (jsToLower html).data = pre ++ (jsToLower palavra).data ++ post) ∧
    ((consultarProcesso env s secao proc uf).2).detalhes? = some (firstMatchSpec html) := by
  have hb : s.browser.isSome = true := by
    have h := hready
    simp only [isReady, Bool.and_eq_true] at h
    exact h.1
  have hp : s.page.isSome = true := by
    have h := hready
    simp only [isReady, Bool.and_eq_true] at h
    exact h.2
  have hres : (consultarProcesso env s secao proc uf).2 =
      QueryResult.ok
        (if (scanKeywords html).1 then "RPV encontrada: " ++ (scanKeywords html).2
         else "Página carregada, mas RPV não foi encontrada")
        (scanKeywords html).1 (scanKeywords html).2 := by
    rcases hk : scanKeywords html with ⟨t, d⟩
    simp [consultarProcesso, consultarResult, hb, hp, hgoto, hcontent, hk]
  rw [hres]
  refine ⟨rfl, ?_, ?_⟩
  · simp only [QueryResult.temRPV?, Option.some.injEq]
    unfold scanKeywords
    rw [show ((scanLoop html palavrasChaveRPV).1 = true) =
        ((scanLoop html palavrasChaveRPV).1 = true) from rfl]
    rw [scanLoop_found_iff html palavrasChaveRPV]
    constructor
    · rintro ⟨k, hk1, hk2⟩
      exact ⟨k, hk1, (strContains_iff (jsToLower html) (jsToLower k)).mp hk2⟩
    · rintro ⟨k, hk1, hsub⟩
      exact ⟨k, hk1, (strContains_iff (jsToLower html) (jsToLower k)).mpr hsub⟩
  · simp only [QueryResult.detalhes?, Option.some.injEq]
    exact scanKeywords_snd html

/-- The result component of `consultarProcesso` when some handle is null
and the lazy initialization runs. -/
theorem consultar_snd_lazy (env : Env) (s : Session) (secao proc uf : String)
    (h : (!s.browser.isSome || !s.page.isSome) = true) :
    (consultarProcesso env s secao proc uf).2 =
      consultarResult env (svcInitialize env s).1 (svcInitialize env s).2.1
        secao proc uf := by
  simp only [consultarProcesso]
  rw [if_pos h, if_pos h]

/-- The result component of `consultarProcesso` when both handles are live
and the lazy initialization is skipped. -/
theorem consultar_snd_ready (env : Env) (s : Session) (secao proc uf : String)
    (h : (!s.browser.isSome || !s.page.isSome) = false) :
    (consultarProcesso env s secao proc uf).2 =
      consultarResult env s (Except.ok ()) secao proc uf := by
  simp only [consultarProcesso]
  rw [if_neg (by simp only [h]; decide), if_neg (by simp only [h]; decide)]

/-- Every failure result of `consultarResult` carries the catch-block
message prefix followed by the thrown error message. -/
theorem consultarResult_err_message (env : Env) (s1 : Session)
    (r : Except String Unit) (secao proc uf : String) :
    (consultarResult env s1 r secao proc uf).sucesso = false →
    ∃ e, consultarResult env s1 r secao proc uf =
        QueryResult.err ("Erro durante a consulta: " ++ e) := by
  cases r with
  | error e => exact fun _ => ⟨e, rfl⟩
  | ok u =>
    by_cases hpg : (!s1.page.isSome) = true
    · exact fun _ => ⟨"Falha ao inicializar a página", by simp [consultarResult, hpg]⟩
    · cases hg : env.goto (buildUrl secao proc uf) with
      | error e => exact fun _ => ⟨e, by simp [consultarResult, hpg, hg]⟩
      | ok u2 =>
        cases hc : env.content with
        | error e => exact fun _ => ⟨e, by simp [consultarResult, hpg, hg, hc]⟩
        | ok html =>
          intro hfail
          exfalso
          rcases hk : scanKeywords html with ⟨t, d⟩
          simp [consultarResult, hpg, hg, hc, hk, QueryResult.sucesso] at hfail

/-- Any failure result of `consultarProcesso` carries the catch-block
message prefix followed by the thrown error message. -/
theorem consultar_err_message (env : Env) (s : Session) (secao proc uf : String) :
    ((consultarProcesso env s secao proc uf).2).sucesso = false →
    ∃ e, (consultarProcesso env s secao proc uf).2 =
        QueryResult.err ("Erro durante a consulta: " ++ e) := by
  cases hc : (!s.browser.isSome || !s.page.isSome) with
  | true =>
    rw [consultar_snd_lazy env s secao proc uf hc]
    exact consultarResult_err_message env _ _ secao proc uf
  | false =>
    rw [consultar_snd_ready env s secao proc uf hc]
    exact consultarResult_err_message env _ _ secao proc uf

/-- C2: each failure inside `consultarProcesso` — lazy initialization
throwing, navigation failing, content extraction failing — is caught and
converted to a `sucesso: false` result whose message extends the thrown
error message, and every `sucesso: false` result has that shape (the
underlying error message occurs in it); the call itself always returns a
result, never an exception. -/
theorem consultar_failure_handling (env : Env) (s : Session) (secao proc uf : String) :
    (∀ s1 e n, isReady s = false →
      svcInitialize env s = (s1, Except.error e, n) →
      (consultarProcesso env s secao proc uf).2 =
        QueryResult.err ("Erro durante a consulta: " ++ e)) ∧
    (∀ e, isReady s = true → env.goto (buildUrl secao proc uf) = Except.error e →
      (consultarProcesso env s secao proc uf).2 =
        QueryResult.err ("Erro durante a consulta: " ++ e)) ∧
    (∀ e, isReady s = true → env.goto (buildUrl secao proc uf) = Except.ok () →
      env.content = Except.error e →
      (consultarProcesso env s secao proc uf).2 =
        QueryResult.err ("Erro durante a consulta: " ++ e)) ∧
    (((consultarProcesso env s secao proc uf).2).sucesso = false →
      ∃ e, (consultarProcesso env s secao proc uf).2 =
          QueryResult.err ("Erro durante a consulta: " ++ e) ∧
        strContains ((consultarProcesso env s secao proc uf).2).mensagem e = true) := by
  refine ⟨?_, ?_, ?_, ?_⟩
  · intro s1 e n hnr hinit
    have hcond : (!s.browser.isSome || !s.page.isSome) = true := by
      simp only [isReady, Bool.and_eq_false_iff] at hnr
      rcases hnr with h | h <;> simp [h]
    rw [consultar_snd_lazy env s secao proc uf hcond, hinit]
    rfl
  · intro e hready hg
    have h := hready
    simp only [isReady, Bool.and_eq_true] at h
    rw [consultar_snd_ready env s secao proc uf (by simp [h.1, h.2])]
    simp [consultarResult, h.2, hg]
  · intro e hready hg hc
    have h := hready
    simp only [isReady, Bool.and_eq_true] at h
    rw [consultar_snd_ready env s secao proc uf (by simp [h.1, h.2])]
    simp [consultarResult, h.2, hg, hc]
  · intro hfail
    rcases consultar_err_message env s secao proc uf hfail with ⟨e, heq⟩
    refine ⟨e, heq, ?_⟩
    rw [heq]
    exact strContains_append_right "Erro durante a consulta: " e

/-! ## Witnesses -/

/-- Witness: on a mocked HTML document containing `precatório` and no
earlier-priority keyword, the query succeeds and reports that keyword. -/
theorem consultar_scan_correct_witness :
    ((consultarProcesso envOk readySession "TRF1" "0000" "BA").2).sucesso = true ∧
    ((consultarProcesso envOk readySession "TRF1" "0000" "BA").2).detalhes? =
      some "precatório" := by
  have h := consultar_scan_correct envOk readySession "TRF1" "0000" "BA"
      "<html>algum texto sobre precatório</html>" rfl rfl rfl
  refine ⟨h.1, ?_⟩
  rw [h.2.2]
  decide

/-- Witness: a navigation timeout on a ready session yields the caught
failure result. -/
theorem consultar_failure_handling_witness :
    (consultarProcesso envNavFail readySession "TRF1" "0000" "BA").2 =
      QueryResult.err
        ("Erro durante a consulta: " ++ "Navigation timeout of 60000 ms exceeded") :=
  (consultar_failure_handling envNavFail readySession "TRF1" "0000" "BA").2.1
    "Navigation timeout of 60000 ms exceeded" rfl rfl

/-- Witness: after a successful initialization from the fresh session, a
second initialization is a complete no-op launching nothing. -/
theorem initialize_idempotent_witness :
    svcInitialize envOk readySession = (readySession, Except.ok (), 0) :=
  (initialize_idempotent envOk envOk emptySession readySession 1).2 rfl

/-- Witness: the session left by a successful initialization from the fresh
session is ready. -/
theorem isReady_spec_witness :
    isReady readySession = true :=
  (isReady_spec emptySession envOk).2.2.2 readySession 1 rfl rfl rfl

/-- Witness: closing the fresh session is a no-op, and closing a live
session shuts the browser down and clears both handles. -/
theorem close_idempotent_witness :
    close emptySession = (emptySession, 0) ∧
    close readySession = ({ browser := none, page := none, isInitializing := false }, 1) :=
  ⟨(close_idempotent emptySession).2.2.1 rfl,
   (close_idempotent readySession).2.2.2.1 rfl⟩

/-- Witness: a failed launch from the fresh session leaves the guard clear
and the session empty, with the launch error rethrown. -/
theorem initialize_failure_resets_witness :
    ((svcInitialize envLaunchFail emptySession).1).isInitializing = false ∧
    (emptySession = emptySession ∧
      (envLaunchFail.launch = Except.error "boom" ∨
        envLaunchFail.newPage = Except.error "boom" ∨
        envLaunchFail.setUserAgent = Except.error "boom")) :=
  ⟨(initialize_failure_resets envLaunchFail emptySession rfl rfl).1,
   (initialize_failure_resets envLaunchFail emptySession rfl rfl).2 emptySession "boom" 0 rfl⟩

/-- Witness: a request with all parameters missing is answered 400 by both
handlers with no service call. -/
theorem handlers_reject_missing_params_witness :
    postApiConsultar envOk emptySession reqMissing =
      (emptySession,
       ({ status := 400,
          body := QueryResult.err "Parâmetros obrigatórios: secao, proc, uf" } :
            HttpResponse),
       []) ∧
    getApiConsultar envOk emptySession reqMissing =
      (emptySession,
       ({ status := 400,
          body := QueryResult.err "Parâmetros obrigatórios: secao, proc, uf" } :
            HttpResponse),
       []) :=
  ⟨(handlers_reject_missing_params envOk emptySession reqMissing).1 rfl,
   (handlers_reject_missing_params envOk emptySession reqMissing).2 rfl⟩

/-- Witness: with the in-progress guard set and no page handle, the query
returns the page-initialization failure result and leaves the state
unchanged. -/
theorem consultar_null_page_guard_witness :
    consultarProcesso envOk stuckSession "TRF1" "0000" "BA" =
      (stuckSession,
        QueryResult.err ("Erro durante a consulta: " ++ "Falha ao inicializar a página")) :=
  consultar_null_page_guard envOk stuckSession "TRF1" "0000" "BA" rfl (Or.inr rfl)

end RPV
